import Mathlib

/-!
Verification of the adaptive PDF structuring engine and project-field
extractor (`src/adaptive_pdf_to_json.py`, `src/extract_project_data.py`).

The Python code is shallowly embedded: strings are Lean `String`s under an
ASCII character model (Python's Unicode-aware `\w`, `.lower()`, `.isupper()`
are modelled on the ASCII range, which covers every string the programs and
these claims exercise), floats are modelled as rationals `ℚ`, dictionaries
as insertion-ordered association lists with replace-in-place updates, and
fallible parses return `Option`.
-/

namespace PdfProc

/-! ## Python character and string primitives (ASCII model) -/

/-- Python `str.isspace` characters (ASCII whitespace, the set `\s` matches). -/
def pyIsSpaceChar (c : Char) : Bool :=
  c = ' ' || c = '\t' || c = '\n' || c = '\r' || c = '\x0b' || c = '\x0c'

def pyIsDigit (c : Char) : Bool := '0' ≤ c && c ≤ '9'

def pyIsUpperChar (c : Char) : Bool := 'A' ≤ c && c ≤ 'Z'

def pyIsLowerChar (c : Char) : Bool := 'a' ≤ c && c ≤ 'z'

def pyIsAlphaChar (c : Char) : Bool := pyIsUpperChar c || pyIsLowerChar c

def pyIsAlnumChar (c : Char) : Bool := pyIsAlphaChar c || pyIsDigit c

/-- A character of Python's regex class `\w` (ASCII model). -/
def pyIsWordChar (c : Char) : Bool := pyIsAlnumChar c || c = '_'

/-- `str.lower` on one character (ASCII model). -/
def pyToLowerChar (c : Char) : Char :=
  if pyIsUpperChar c then Char.ofNat (c.toNat + 32) else c

/-- `str.strip()` on a character list: drop whitespace from both ends. -/
def pyStripChars (l : List Char) : List Char :=
  ((l.dropWhile pyIsSpaceChar).reverse.dropWhile pyIsSpaceChar).reverse

/-- `str.strip()`. -/
def pyStrip (s : String) : String := String.mk (pyStripChars s.toList)

/-- `str.isupper()`: at least one cased character and no lower-case cased
character (cased = ASCII letter in this model). -/
def pyIsUpperStr (l : List Char) : Bool :=
  l.any pyIsAlphaChar && l.all (fun c => !pyIsAlphaChar c || pyIsUpperChar c)

/-- `str.lower()` (ASCII model). -/
def pyToLower (l : List Char) : List Char := l.map pyToLowerChar

/-- Does `l` start with `pat`? -/
def startsWithChars : List Char → List Char → Bool
  | _, [] => true
  | [], _ :: _ => false
  | c :: cs, p :: ps => c = p && startsWithChars cs ps

/-- Does `pat` occur contiguously inside `l` (Python's `pat in l`)? -/
def hasSubChars : List Char → List Char → Bool
  | [], pat => pat.isEmpty
  | c :: rest, pat => startsWithChars (c :: rest) pat || hasSubChars rest pat

/-- Case-insensitive substring test (`pat in l.lower()` with `pat` lower-case). -/
def hasSubCI (l pat : List Char) : Bool := hasSubChars (pyToLower l) pat

/-! ## `detect_heading` (src/adaptive_pdf_to_json.py lines 152-173) -/

/-- `detect_heading(text, font_size, is_bold)`: strip the text; a non-empty
line shorter than 80 characters is a heading when it is fully upper-case and
longer than 3 characters, or the boldness flag is set, or the font size is
truthy and exceeds 12. -/
def detect_heading (text : String) (font_size : Option ℚ) (is_bold : Bool) : Bool :=
  let t := pyStripChars text.toList
  if t.isEmpty then false
  else if t.length < 80 then
    if pyIsUpperStr t && t.length > 3 then true
    else if is_bold then true
    else match font_size with
      | some fs => !(fs = 0) && decide (fs > 12)
      | none => false
  else false

/-! ## `normalize_section_name` (src/adaptive_pdf_to_json.py lines 176-188) -/

/-- `re.sub(r'_+', '_', ·)`: collapse runs of underscores to one (processed
right to left: an underscore meeting an already-collapsed underscore is
absorbed into it). -/
def collapseUnderscores : List Char → List Char
  | [] => []
  | a :: rest =>
    match collapseUnderscores rest with
    | [] => [a]
    | b :: tail => if a = '_' && b = '_' then b :: tail else a :: b :: tail

/-- `str.strip('_')`: drop underscores from both ends. -/
def stripUnderscores (l : List Char) : List Char :=
  ((l.dropWhile (fun c => c = '_')).reverse.dropWhile (fun c => c = '_')).reverse

/-- `normalize_section_name(heading)`: keep word characters and whitespace,
lower-case, strip, spaces to underscores, collapse repeated underscores,
strip underscores, with `"unnamed_section"` as the fallback for empty. -/
def normalize_section_name (heading : String) : String :=
  let clean := heading.toList.filter (fun c => pyIsWordChar c || pyIsSpaceChar c)
  let clean := pyToLower clean
  let clean := pyStripChars clean
  let clean := clean.map (fun c => if c = ' ' then '_' else c)
  let clean := collapseUnderscores clean
  let clean := stripUnderscores clean
  if clean.isEmpty then "unnamed_section" else String.mk clean

/-! ## Line classification (src/adaptive_pdf_to_json.py lines 373-431) -/

inductive LineTag where
  | heading
  | keyValue
  | listItem
  | paragraph
deriving DecidableEq, Repr

/-- The key-value branch condition: `":" in text or " - " in text or "→" in text`. -/
def kv_line_condition (t : List Char) : Bool :=
  hasSubChars t [':'] || hasSubChars t [' ', '-', ' '] || hasSubChars t ['→']

/-- One character of the regex class `[•\-\*\d+\.]`. -/
def list_marker_char (c : Char) : Bool :=
  c = '•' || c = '-' || c = '*' || pyIsDigit c || c = '+' || c = '.'

/-- `re.match(r'^[\s]*[•\-\*\d+\.]\s+', text)`: optional leading whitespace,
one marker character, then at least one whitespace character. -/
def matchesListPattern (t : List Char) : Bool :=
  match t.dropWhile pyIsSpaceChar with
  | c :: d :: _ => list_marker_char c && pyIsSpaceChar d
  | _ => false

/-- The list branch condition of the assembler loop. -/
def is_list_line (t : List Char) : Bool :=
  matchesListPattern t || startsWithChars t ['-', ' '] || startsWithChars t ['•']

/-- The `if`/`elif` chain of the assembler's line loop as a total classifier:
heading (via `detect_heading`), then key-value candidate, then list item,
then paragraph. -/
def classify_line (text : String) (font_size : Option ℚ) (is_bold : Bool) : LineTag :=
  let t := pyStripChars text.toList
  if detect_heading text font_size is_bold then .heading
  else if kv_line_condition t then .keyValue
  else if is_list_line t then .listItem
  else .paragraph

/-! ## `is_valid_coord` (src/extract_project_data.py lines 163-171) -/

/-- `is_valid_coord(value, coord_type)`: zero (Python-falsy) is rejected,
then latitude must lie strictly inside (10, 17) and longitude strictly
inside (73, 79); any other coordinate type is rejected. -/
def is_valid_coord (value : ℚ) (coord_type : String) : Bool :=
  if value = 0 then false
  else if coord_type = "lat" then decide (10 < value) && decide (value < 17)
  else if coord_type = "lon" then decide (73 < value) && decide (value < 79)
  else false

/-! ## Numeric and date parsing (src/extract_project_data.py lines 21-40) -/

/-- Decimal value of a digit list. -/
def natOfDigits (l : List Char) : ℕ :=
  l.foldl (fun n c => 10 * n + (c.toNat - 48)) 0

/-- Python `float(...)` on a string made of digits and dots: defined when
there is at least one digit and at most one dot (conversion failure, which
raises in the source, is modelled as `none`). -/
def pyFloatOfChars (l : List Char) : Option ℚ :=
  let intPart := l.takeWhile pyIsDigit
  match l.dropWhile pyIsDigit with
  | [] => if intPart.isEmpty then none else some (natOfDigits intPart)
  | '.' :: frac =>
    if frac.all pyIsDigit && !(intPart.isEmpty && frac.isEmpty) then
      some ((natOfDigits intPart : ℚ) + (natOfDigits frac : ℚ) / (10 ^ frac.length : ℕ))
    else none
  | _ => none

/-- The first maximal run of characters from `[\d.]` in a list, if any. -/
def findFloatRun : List Char → Option (List Char)
  | [] => none
  | c :: rest =>
    if pyIsDigit c || c = '.' then some ((c :: rest).takeWhile (fun d => pyIsDigit d || d = '.'))
    else findFloatRun rest

/-- `extract_float(text)`: `re.search(r'([\d.]+)', str(text))` then `float`. -/
def extract_float (s : String) : Option ℚ :=
  (findFloatRun s.toList).bind pyFloatOfChars

/-- `extract_number(text)`: drop commas, then the first run of digits as an
integer. -/
def extract_number (s : String) : Option ℕ :=
  match (s.toList.filter (fun c => !(c = ','))).dropWhile (fun c => !pyIsDigit c) with
  | [] => none
  | ds => some (natOfDigits (ds.takeWhile pyIsDigit))

/-- Does a `\d{2}-\d{2}-\d{4}` date start at the head of the list? -/
def dateAtHead (l : List Char) : Option (List Char) :=
  match l with
  | d1 :: d2 :: h1 :: d3 :: d4 :: h2 :: d5 :: d6 :: d7 :: d8 :: _ =>
    if pyIsDigit d1 && pyIsDigit d2 && h1 = '-' && pyIsDigit d3 && pyIsDigit d4 &&
        h2 = '-' && pyIsDigit d5 && pyIsDigit d6 && pyIsDigit d7 && pyIsDigit d8 then
      some [d1, d2, h1, d3, d4, h2, d5, d6, d7, d8]
    else none
  | _ => none

/-- First `\d{2}-\d{2}-\d{4}` match anywhere in the list. -/
def findDate : List Char → Option (List Char)
  | [] => none
  | c :: rest =>
    match dateAtHead (c :: rest) with
    | some d => some d
    | none => findDate rest

/-- `extract_date(text)`: first `DD-MM-YYYY` shaped substring. -/
def extract_date (s : String) : Option String :=
  (findDate s.toList).map String.mk

/-! ## Table classification (src/adaptive_pdf_to_json.py lines 191-246)

A raw table from the upstream segmenter is a grid of optional cell strings
(`None` cells are `none`). -/

/-- Python truthiness of a cell: present and a non-empty string. -/
def pyTruthyCell : Option String → Bool
  | none => false
  | some s => !s.isEmpty

/-- `re.match(r'^\d+[.,]?\d*$', ·)`: one or more digits, an optional dot or
comma, then zero or more digits, spanning the whole string. -/
def decimalCellMatch (l : List Char) : Bool :=
  let ds := l.takeWhile pyIsDigit
  !ds.isEmpty &&
    (match l.dropWhile pyIsDigit with
     | [] => true
     | c :: rest => (c = '.' || c = ',') && rest.all pyIsDigit)

/-- The header test applied to the first row: the row is non-empty (truthy
list) and every truthy cell among its first five entries strips to fewer
than 50 characters and does not match the pure-decimal pattern.  Falsy
(empty or missing) cells are skipped by the `if cell` filter of the
generator expression. -/
def first_row_header_check (first_row : List (Option String)) : Bool :=
  !first_row.isEmpty &&
    ((first_row.take 5).filter pyTruthyCell).all (fun cell =>
      pyTruthyCell cell &&
        (match cell with
         | some s =>
           (pyStripChars s.toList).length < 50 && !decimalCellMatch (pyStripChars s.toList)
         | none => false))

/-- `str(cell).strip() if cell else ""`. -/
def cellValue (cell : Option String) : String :=
  if pyTruthyCell cell then pyStrip (cell.getD "") else ""

/-- The header labels: `str(cell).strip() if cell else f"col_{i}"`. -/
def headersOf (first_row : List (Option String)) : List String :=
  first_row.enum.map (fun p =>
    if pyTruthyCell p.2 then pyStrip (p.2.getD "") else "col_" ++ toString p.1)

/-- Insertion-ordered dictionary update: replace in place or append. -/
def dictInsert (k : String) (v : α) : List (String × α) → List (String × α)
  | [] => [(k, v)]
  | (k', v') :: rest => if k' = k then (k, v) :: rest else (k', v') :: dictInsert k v rest

/-- One data row as a dictionary keyed by the headers (positional fallback
label past the header count), with Python dict overwrite semantics. -/
def rowToDict (headers : List String) (row : List (Option String)) : List (String × String) :=
  row.enum.foldl (fun d p =>
    dictInsert (headers.getD p.1 ("col_" ++ toString p.1)) (cellValue p.2) d) []

/-- `if row and any(cell for cell in row)`. -/
def rowNonEmpty (row : List (Option String)) : Bool :=
  !row.isEmpty && row.any pyTruthyCell

inductive TableData where
  | rows (rs : List (List (String × String)))
  | raw (rs : List (List String))
deriving DecidableEq, Repr

/-- The per-table body of `extract_tables_pdfplumber`: header detection and
row shaping.  A one-row table keeps `has_header = False` and empty data. -/
def computeTableData (table : List (List (Option String))) : Bool × TableData :=
  if table.length > 1 then
    match table with
    | first_row :: rest_rows =>
      if first_row_header_check first_row then
        (true, .rows ((rest_rows.filter rowNonEmpty).map (rowToDict (headersOf first_row))))
      else
        (false, .raw ((table.filter rowNonEmpty).map (fun row => row.map cellValue)))
    | [] => (false, .raw [])
  else (false, .raw [])

/-- The number of data rows kept. -/
def tableDataCount : TableData → ℕ
  | .rows rs => rs.length
  | .raw rs => rs.length

/-- One entry of the `detected_tables` list. -/
structure PTable where
  page_number : ℕ
  table_index : ℕ
  has_header : Bool
  data : TableData
  row_count : ℕ
deriving DecidableEq, Repr

/-- The table record built for one raw grid. -/
def mkTable (page_number table_index : ℕ) (grid : List (List (Option String))) : PTable :=
  let (hh, td) := computeTableData grid
  { page_number := page_number, table_index := table_index,
    has_header := hh, data := td, row_count := tableDataCount td }

/-! ## Key-value line extraction (src/adaptive_pdf_to_json.py lines 116-149)

`extract_key_value_pairs` is only called on one stripped line of text (no
newline), so the two `findall` patterns are modelled for that case: each
yields at most one (key, value) candidate per line. -/

/-- Split at the first character satisfying `p`. -/
def splitFirst (p : Char → Bool) : List Char → Option (List Char × List Char)
  | [] => none
  | c :: rest =>
    if p c then some ([], rest)
    else (splitFirst p rest).map (fun q => (c :: q.1, q.2))

/-- Pattern 1, `([^:\n]+?)\s*:\s*([^\n]+?)(?=\n|$)`, on a single line: the
leftmost match splits at the first colon that has a non-colon character
before it; key and value are returned stripped. -/
def pattern1Pair (l : List Char) : Option (String × String) :=
  match splitFirst (fun c => c = ':') (l.dropWhile (fun c => c = ':')) with
  | none => none
  | some (before, after) =>
    some (String.mk (pyStripChars before), String.mk (pyStripChars after))

/-- Is index-scanning state for pattern 2 usable at this dash?  `pre` is the
text before the dash (reversed), `post` the text after: the regex
`([^-\n]+?)\s+-\s+([^\n]+?)` needs whitespace on both sides of the dash, a
non-dash, non-whitespace character before that whitespace, and at least one
character for the value after the whitespace that follows the dash. -/
def pattern2UsableHere (preRev post : List Char) : Bool :=
  match preRev with
  | [] => false
  | w :: _ =>
    pyIsSpaceChar w &&
      (match (preRev.dropWhile pyIsSpaceChar) with
       | [] => false
       | k :: _ => !(k = '-')) &&
      (match post with
       | w2 :: rest2 => pyIsSpaceChar w2 && !rest2.isEmpty
       | [] => false)

/-- Pattern 2, `([^-\n]+?)\s+-\s+([^\n]+?)(?=\n|$)`, on a single line: the
match is at the first dash with the shape tested by `pattern2UsableHere`;
the key is the stripped text between the previous dash and this dash, the
value the stripped remainder. -/
def pattern2Scan (preRev : List Char) : List Char → Option (String × String)
  | [] => none
  | c :: rest =>
    if c = '-' && pattern2UsableHere preRev rest then
      some (String.mk (pyStripChars (preRev.takeWhile (fun d => !(d = '-'))).reverse),
            String.mk (pyStripChars rest))
    else pattern2Scan (c :: preRev) rest

def pattern2Pair (l : List Char) : Option (String × String) := pattern2Scan [] l

/-- `re.sub(r'[^\w\s]', '', key).strip().lower().replace(' ', '_')`. -/
def cleanKvKey (key : String) : String :=
  let l := key.toList.filter (fun c => pyIsWordChar c || pyIsSpaceChar c)
  let l := pyStripChars l
  let l := pyToLower l
  String.mk (l.map (fun c => if c = ' ' then '_' else c))

/-- `extract_key_value_pairs(text)` for one line of text: pattern 1 first,
then pattern 2 for a key not already captured; keys at least 100 characters
long, empty keys or values, and empty cleaned keys are discarded. -/
def extract_key_value_pairs (text : String) : List (String × String) :=
  let l := text.toList
  let kv1 : List (String × String) :=
    match pattern1Pair l with
    | some p =>
      if !p.1.isEmpty && !p.2.isEmpty && p.1.length < 100 then
        let ck := cleanKvKey p.1
        if !ck.isEmpty then [(ck, p.2)] else []
      else []
    | none => []
  match pattern2Pair l with
  | some p =>
    if !p.1.isEmpty && !p.2.isEmpty && p.1.length < 100 then
      let ck := cleanKvKey p.1
      if !ck.isEmpty && (kv1.lookup ck).isNone then kv1 ++ [(ck, p.2)] else kv1
    else kv1
  | none => kv1

/-! ## Document assembly (src/adaptive_pdf_to_json.py lines 325-468) -/

/-- One section bucket of the document record. -/
structure DocSection where
  heading : String
  content : List String
  key_value_pairs : List (String × String)
  tables : List PTable
deriving DecidableEq, Repr

/-- One line as delivered by the upstream text layer (its `is_heading` flag
is recomputed by `detect_heading` exactly as the extractor computes it). -/
structure LineInfo where
  text : String
  font_size : Option ℚ
  is_bold : Bool
deriving DecidableEq, Repr

structure PageInput where
  page_number : ℕ
  lines : List LineInfo
deriving DecidableEq, Repr

/-- The per-page record (`page_content`). -/
structure PageContent where
  page_number : ℕ
  headings : List String
  key_value_pairs : List (String × String)
  paragraphs : List String
  lists : List (List String)
deriving DecidableEq, Repr

/-- Document-level assembler state carried across pages: the section mapping
(insertion-ordered), top-level key-value pairs, unstructured text and the
key of the currently open section. -/
structure BuildState where
  sections : List (String × DocSection)
  key_value_pairs : List (String × String)
  unstructured_text : List (ℕ × String)
  current_section : Option String
deriving DecidableEq, Repr

/-- Apply `f` to the section stored under key `k` (the Python code mutates
that one dict through the `current_section` reference). -/
def updateSectionAt : List (String × DocSection) → String → (DocSection → DocSection) →
    List (String × DocSection)
  | [], _, _ => []
  | p :: rest, k, f =>
    (if p.1 = k then (p.1, f p.2) else p) :: updateSectionAt rest k f

/-- In-page loop state: assembler state, the page record under construction,
and the paragraph/list buffers. -/
structure LineLoopState where
  st : BuildState
  pc : PageContent
  current_paragraph : List String
  current_list : List String
  in_list : Bool
deriving DecidableEq, Repr

/-- Flush the paragraph buffer to the page record if non-empty. -/
def flushParagraph (pc : PageContent) (para : List String) : PageContent :=
  if !para.isEmpty then
    { pc with paragraphs := pc.paragraphs ++ [String.intercalate " " para] }
  else pc

/-- Flush the list buffer to the page record if non-empty. -/
def flushList (pc : PageContent) (lst : List String) : PageContent :=
  if !lst.isEmpty then { pc with lists := pc.lists ++ [lst] } else pc

/-- Record one extracted (key, value) pair: into the open section's
key-value mapping when a section is open, else into the document's top
level; always also into the page record. -/
def kvPairStep (acc : BuildState × PageContent) (pr : String × String) :
    BuildState × PageContent :=
  let st :=
    match acc.1.current_section with
    | some k =>
      { acc.1 with
        sections := updateSectionAt acc.1.sections k (fun sec =>
          { sec with key_value_pairs := dictInsert pr.1 pr.2 sec.key_value_pairs }) }
    | none => { acc.1 with key_value_pairs := dictInsert pr.1 pr.2 acc.1.key_value_pairs }
  (st, { acc.2 with key_value_pairs := dictInsert pr.1 pr.2 acc.2.key_value_pairs })

/-- The heading branch of the line loop: flush both buffers to the page,
create the section if its normalized key is new, open it, and record the
heading on the page. -/
def headingLineStep (ls : LineLoopState) (text : String) : LineLoopState :=
  let pc := flushParagraph ls.pc ls.current_paragraph
  let pc := flushList pc ls.current_list
  let section_key := normalize_section_name text
  let sections :=
    if (ls.st.sections.lookup section_key).isNone then
      ls.st.sections ++
        [(section_key,
          { heading := text, content := [], key_value_pairs := [], tables := [] })]
    else ls.st.sections
  { st := { ls.st with sections := sections, current_section := some section_key },
    pc := { pc with headings := pc.headings ++ [text] },
    current_paragraph := [], current_list := [], in_list := false }

/-- The key-value branch: extract the pairs and record each (nothing is
recorded when no pair is found). -/
def kvLineStep (ls : LineLoopState) (text : String) : LineLoopState :=
  let pairs := extract_key_value_pairs text
  if pairs.isEmpty then ls
  else
    let res := pairs.foldl kvPairStep (ls.st, ls.pc)
    { ls with st := res.1, pc := res.2 }

/-- The list-item branch: start/extend the list buffer, flushing a pending
paragraph buffer. -/
def listLineStep (ls : LineLoopState) (text : String) : LineLoopState :=
  { ls with
    in_list := true,
    current_list := ls.current_list ++ [text],
    pc := flushParagraph ls.pc ls.current_paragraph,
    current_paragraph := [] }

/-- The paragraph branch: flush a pending list buffer, then extend the
paragraph buffer. -/
def paragraphLineStep (ls : LineLoopState) (text : String) : LineLoopState :=
  let pc := if ls.in_list && !ls.current_list.isEmpty then flushList ls.pc ls.current_list else ls.pc
  let lst := if ls.in_list && !ls.current_list.isEmpty then [] else ls.current_list
  { ls with
    pc := pc
    current_list := lst
    in_list := false
    current_paragraph := ls.current_paragraph ++ [text] }

/-- One iteration of the line loop of `build_json_structure`: skip blank
lines, else branch on heading / key-value / list / paragraph in that order. -/
def process_line (ls : LineLoopState) (line : LineInfo) : LineLoopState :=
  let text := pyStrip line.text
  if text.isEmpty then ls
  else if detect_heading line.text line.font_size line.is_bold then
    headingLineStep ls text
  else if kv_line_condition text.toList then
    kvLineStep ls text
  else if is_list_line text.toList then
    listLineStep ls text
  else
    paragraphLineStep ls text

/-- The end-of-page paragraph assignment: every paragraph collected on the
page goes to the section open at the end of the page, or to the document's
unstructured text tagged with the page number when no section is open. -/
def assignParagraphs (st : BuildState) (page_number : ℕ) (pc : PageContent) : BuildState :=
  match st.current_section with
  | some k =>
    { st with
      sections := updateSectionAt st.sections k (fun sec =>
        { sec with content := sec.content ++ pc.paragraphs }) }
  | none =>
    { st with
      unstructured_text := st.unstructured_text ++ pc.paragraphs.map (fun p => (page_number, p)) }

/-- The line loop of one page, starting from fresh buffers and an empty
page record. -/
def pageLineLoop (st : BuildState) (page : PageInput) : LineLoopState :=
  page.lines.foldl process_line
    { st := st,
      pc := { page_number := page.page_number, headings := [], key_value_pairs := [],
              paragraphs := [], lists := [] },
      current_paragraph := [], current_list := [], in_list := false }

/-- The finished page record: the page under construction with the residual
paragraph and list buffers flushed. -/
def pageRecordOf (ls : LineLoopState) : PageContent :=
  flushList (flushParagraph ls.pc ls.current_paragraph) ls.current_list

/-- Process one page: run the line loop, flush the residual buffers, then
assign the page's paragraphs. -/
def process_page (st : BuildState) (page : PageInput) : BuildState × PageContent :=
  let ls := pageLineLoop st page
  let pc := pageRecordOf ls
  (assignParagraphs ls.st page.page_number pc, pc)

/-- Table-to-section association (src/adaptive_pdf_to_json.py lines 451-466):
the inner loop appends the table to the first section it visits and breaks. -/
def appendTableToFirst (secs : List (String × DocSection)) (t : PTable) :
    List (String × DocSection) :=
  match secs with
  | [] => []
  | (k, s) :: rest => (k, { s with tables := s.tables ++ [t] }) :: rest

def associate_tables (secs : List (String × DocSection)) (tables : List PTable) :
    List (String × DocSection) :=
  tables.foldl appendTableToFirst secs

/-- The document record fields built by `build_json_structure` that the
claims speak about. -/
structure BuildResult where
  sections : List (String × DocSection)
  key_value_pairs : List (String × String)
  unstructured_text : List (ℕ × String)
  extracted_pages : List PageContent
  detected_tables : List PTable
deriving DecidableEq, Repr

def initialBuildState : BuildState :=
  { sections := [], key_value_pairs := [], unstructured_text := [], current_section := none }

/-- Process one page inside the page fold, appending the page record. -/
def buildStep (acc : BuildState × List PageContent) (page : PageInput) :
    BuildState × List PageContent :=
  let r := process_page acc.1 page
  (r.1, acc.2 ++ [r.2])

/-- `build_json_structure`: fold the pages through the assembler, then
associate the tables with sections. -/
def build_json_structure (pages : List PageInput) (tables : List PTable) : BuildResult :=
  let res := pages.foldl buildStep (initialBuildState, [])
  { sections := associate_tables res.1.sections tables,
    key_value_pairs := res.1.key_value_pairs,
    unstructured_text := res.1.unstructured_text,
    extracted_pages := res.2,
    detected_tables := tables }

/-! ## Regular-expression searching primitives for the field extractor

Each Python pattern used by `parse_project_from_json` is deterministic
enough to implement directly: a case-insensitive literal, greedy character
classes (whose following token is always from a disjoint class, so no
backtracking arises), and a lazy group that stops at the first stop-marker
or at `$`. -/

/-- Consume the lower-case literal `pat` case-insensitively; return the rest. -/
def matchCIAt : List Char → List Char → Option (List Char)
  | [], l => some l
  | _ :: _, [] => none
  | p :: ps, c :: cs => if pyToLowerChar c = p then matchCIAt ps cs else none

/-- A character of the class `[:\s]`. -/
def colonOrSpace (c : Char) : Bool := c = ':' || pyIsSpaceChar c

/-- `[:\s]+([\d.]+)`: at least one separator, then the greedy `[\d.]+` group. -/
def sepThenNum (r : List Char) : Option (List Char) :=
  match r with
  | c :: _ =>
    if colonOrSpace c then
      let g := (r.dropWhile colonOrSpace).takeWhile (fun d => pyIsDigit d || d = '.')
      if g.isEmpty then none else some g
    else none
  | [] => none

/-- Leftmost match of `try1` over all start positions. -/
def searchList (try1 : List Char → Option α) : List Char → Option α
  | [] => none
  | c :: rest =>
    match try1 (c :: rest) with
    | some g => some g
    | none => searchList try1 rest

/-- `(?:^|\s)LABEL[:\s]+([\d.]+)` at one position (the label must sit at the
string start, at a line start, or after whitespace — tracked by `ok`). -/
def tryLabelNum (label : List Char) (l : List Char) : Option (List Char) :=
  (matchCIAt label l).bind sepThenNum

/-- MULTILINE/IGNORECASE search for `(?:^|\s)LABEL[:\s]+([\d.]+)`: `ok` says
whether the current position follows the string start, a newline, or any
whitespace character. -/
def boundedLabelSearch (label : List Char) : Bool → List Char → Option (List Char)
  | _, [] => none
  | ok, c :: rest =>
    match (if ok then tryLabelNum label (c :: rest) else none) with
    | some g => some g
    | none => boundedLabelSearch label (pyIsSpaceChar c) rest

/-- `W1\s+W2[:\s]+([\d.]+)` at one position (e.g. `North\s+Latitude[:\s]+…`). -/
def tryDirCoord (w1 w2 : List Char) (l : List Char) : Option (List Char) :=
  (matchCIAt w1 l).bind fun r =>
    match r with
    | c :: _ =>
      if pyIsSpaceChar c then (matchCIAt w2 (r.dropWhile pyIsSpaceChar)).bind sepThenNum
      else none
    | [] => none

/-! ## Coordinate resolution (src/extract_project_data.py lines 158-354) -/

/-- Python truthiness of an optional float. -/
def pyFalsyOpt : Option ℚ → Bool
  | none => true
  | some v => v = 0

/-- The four boundary points' latitude/longitude slots. -/
structure BoundaryCoords where
  north_lat : Option ℚ := none
  north_lon : Option ℚ := none
  east_lat : Option ℚ := none
  east_lon : Option ℚ := none
  west_lat : Option ℚ := none
  west_lon : Option ℚ := none
  south_lat : Option ℚ := none
  south_lon : Option ℚ := none
deriving DecidableEq, Repr

/-- `if lat_val and lat_val != 0.0 and is_valid_coord(lat_val, kind):` keep
the old slot value unless the candidate passes. -/
def updSlot (kind : String) (cur v : Option ℚ) : Option ℚ :=
  match v with
  | some x => if !(x = 0) && is_valid_coord x kind then some x else cur
  | none => cur

/-- `^([\d.]+)\s*(?:North|East|West|South)\s*Longitude[:\s]*([\d.]+)` against
the start of the value string; returns the two number groups. -/
def combinedCoordMatch (l : List Char) : Option (List Char × List Char) :=
  let g1 := l.takeWhile (fun c => pyIsDigit c || c = '.')
  if g1.isEmpty then none
  else
    let r1 := (l.dropWhile (fun c => pyIsDigit c || c = '.')).dropWhile pyIsSpaceChar
    let afterDir :=
      match matchCIAt ['n', 'o', 'r', 't', 'h'] r1 with
      | some r => some r
      | none =>
        match matchCIAt ['e', 'a', 's', 't'] r1 with
        | some r => some r
        | none =>
          match matchCIAt ['w', 'e', 's', 't'] r1 with
          | some r => some r
          | none => matchCIAt ['s', 'o', 'u', 't', 'h'] r1
    (afterDir.bind fun r2 =>
      (matchCIAt "longitude".toList (r2.dropWhile pyIsSpaceChar)).bind fun r3 =>
        let g2 := (r3.dropWhile colonOrSpace).takeWhile (fun c => pyIsDigit c || c = '.')
        if g2.isEmpty then none else some (g1, g2))

/-- The body of the boundary-coordinate loop over one key-value entry
(src/extract_project_data.py lines 220-288): the combined-format branch,
then the separate-field `if`/`elif` chain. -/
def processBoundaryKv (bc : BoundaryCoords) (key value : String) : BoundaryCoords :=
  if value.isEmpty then bc
  else
    let keyL := pyToLower key.toList
    let hasKey := fun (w : String) => hasSubChars keyL w.toList
    let bc :=
      if hasSubChars (pyToLower value.toList) "longitude".toList then
        match combinedCoordMatch value.toList with
        | some g =>
          let lat_val := extract_float (String.mk g.1)
          let lon_val := extract_float (String.mk g.2)
          if hasKey "north" && hasKey "latitude" then
            { bc with north_lat := updSlot "lat" bc.north_lat lat_val
                      north_lon := updSlot "lon" bc.north_lon lon_val }
          else if hasKey "east" && hasKey "latitude" then
            { bc with east_lat := updSlot "lat" bc.east_lat lat_val
                      east_lon := updSlot "lon" bc.east_lon lon_val }
          else if hasKey "west" && hasKey "latitude" then
            { bc with west_lat := updSlot "lat" bc.west_lat lat_val
                      west_lon := updSlot "lon" bc.west_lon lon_val }
          else if hasKey "south" && hasKey "latitude" then
            { bc with south_lat := updSlot "lat" bc.south_lat lat_val
                      south_lon := updSlot "lon" bc.south_lon lon_val }
          else bc
        | none => bc
      else bc
    let val := extract_float value
    if hasKey "north_latitude" then { bc with north_lat := updSlot "lat" bc.north_lat val }
    else if hasKey "north_longitude" then { bc with north_lon := updSlot "lon" bc.north_lon val }
    else if hasKey "east_latitude" then { bc with east_lat := updSlot "lat" bc.east_lat val }
    else if hasKey "east_longitude" then { bc with east_lon := updSlot "lon" bc.east_lon val }
    else if hasKey "west_latitude" then { bc with west_lat := updSlot "lat" bc.west_lat val }
    else if hasKey "west_longitude" then { bc with west_lon := updSlot "lon" bc.west_lon val }
    else if hasKey "south_latitude" then { bc with south_lat := updSlot "lat" bc.south_lat val }
    else if hasKey "south_longitude" then { bc with south_lon := updSlot "lon" bc.south_lon val }
    else bc

/-- The resolved document coordinates. -/
structure ProjCoords where
  latitude : Option ℚ := none
  longitude : Option ℚ := none
deriving DecidableEq, Repr

/-- Step 1: direct `latitude`/`longitude` key-value fields, each
independently parsed, checked for truthiness and range. -/
def directCoordStep (kv : List (String × String)) : ProjCoords :=
  { latitude :=
      match kv.lookup "latitude" with
      | some s => updSlot "lat" none (extract_float s)
      | none => none
    longitude :=
      match kv.lookup "longitude" with
      | some s => updSlot "lon" none (extract_float s)
      | none => none }

/-- `[v for v in [north, south, east, west] if v]`. -/
def truthyVals (l : List (Option ℚ)) : List ℚ :=
  l.filterMap (fun v =>
    match v with
    | some x => if !(x = 0) then some x else none
    | none => none)

def boundaryLats (bc : BoundaryCoords) : List ℚ :=
  truthyVals [bc.north_lat, bc.south_lat, bc.east_lat, bc.west_lat]

def boundaryLons (bc : BoundaryCoords) : List ℚ :=
  truthyVals [bc.north_lon, bc.south_lon, bc.east_lon, bc.west_lon]

def listMin : List ℚ → ℚ
  | [] => 0
  | x :: xs => xs.foldl min x

def listMax : List ℚ → ℚ
  | [] => 0
  | x :: xs => xs.foldl max x

/-- The centroid of the populated boundary points: midpoint of (min, max)
independently for latitudes and longitudes. -/
def centroidOf (lats lons : List ℚ) : ℚ × ℚ :=
  ((listMin lats + listMax lats) / 2, (listMin lons + listMax lons) / 2)

/-- Step 4 (lines 291-302): accept the centroid when boundary values exist
and no latitude has been resolved yet — the guard does not test the
longitude, so a previously resolved longitude is overwritten here. -/
def centroidStep (bc : BoundaryCoords) (p : ProjCoords) : ProjCoords :=
  let lats := boundaryLats bc
  let lons := boundaryLons bc
  if !lats.isEmpty && !lons.isEmpty && pyFalsyOpt p.latitude then
    let c := centroidOf lats lons
    if is_valid_coord c.1 "lat" && is_valid_coord c.2 "lon" then
      { latitude := some c.1, longitude := some c.2 }
    else p
  else p

/-- Lines 305-310: text fallback for a simple latitude. -/
def textLatStep (allText : List Char) (p : ProjCoords) : ProjCoords :=
  if pyFalsyOpt p.latitude then
    match boundedLabelSearch "latitude".toList true allText with
    | some g =>
      match pyFloatOfChars g with
      | some v => if is_valid_coord v "lat" then { p with latitude := some v } else p
      | none => p
    | none => p
  else p

/-- Lines 312-317: text fallback for a simple longitude. -/
def textLonStep (allText : List Char) (p : ProjCoords) : ProjCoords :=
  if pyFalsyOpt p.longitude then
    match boundedLabelSearch "longitude".toList true allText with
    | some g =>
      match pyFloatOfChars g with
      | some v => if is_valid_coord v "lon" then { p with longitude := some v } else p
      | none => p
    | none => p
  else p

/-- One directional text pattern (lines 333-341): keep the old slot unless a
match parses to a truthy, range-valid number. -/
def textBoundarySlot (kind : String) (w1 : String) (w2 : String) (allText : List Char)
    (cur : Option ℚ) : Option ℚ :=
  match searchList (tryDirCoord w1.toList w2.toList) allText with
  | some g => updSlot kind cur (extract_float (String.mk g))
  | none => cur

/-- Lines 320-354: when a coordinate is still missing, fill the boundary
slots from the body text and recompute the centroid; on success both
coordinates are overwritten. -/
def textBoundaryStep (allText : List Char) (bc : BoundaryCoords) (p : ProjCoords) : ProjCoords :=
  if pyFalsyOpt p.latitude || pyFalsyOpt p.longitude then
    let bc :=
      { north_lat := textBoundarySlot "lat" "north" "latitude" allText bc.north_lat
        north_lon := textBoundarySlot "lon" "north" "longitude" allText bc.north_lon
        east_lat := textBoundarySlot "lat" "east" "latitude" allText bc.east_lat
        east_lon := textBoundarySlot "lon" "east" "longitude" allText bc.east_lon
        west_lat := textBoundarySlot "lat" "west" "latitude" allText bc.west_lat
        west_lon := textBoundarySlot "lon" "west" "longitude" allText bc.west_lon
        south_lat := textBoundarySlot "lat" "south" "latitude" allText bc.south_lat
        south_lon := textBoundarySlot "lon" "south" "longitude" allText bc.south_lon }
    let lats := boundaryLats bc
    let lons := boundaryLons bc
    if !lats.isEmpty && !lons.isEmpty then
      let c := centroidOf lats lons
      if is_valid_coord c.1 "lat" && is_valid_coord c.2 "lon" then
        { latitude := some c.1, longitude := some c.2 }
      else p
    else p
  else p

/-- The whole coordinate-resolution pipeline of `parse_project_from_json`:
direct fields, boundary slots from key-value entries, centroid, simple text
fallbacks, boundary text fallback with recomputed centroid. -/
def resolveCoordinates (kv : List (String × String)) (allText : String) :
    Option ℚ × Option ℚ :=
  let p := directCoordStep kv
  let bc := kv.foldl (fun bc pr => processBoundaryKv bc pr.1 pr.2) {}
  let p := centroidStep bc p
  let t := allText.toList
  let p := textLatStep t p
  let p := textLonStep t p
  let p := textBoundaryStep t bc p
  (p.latitude, p.longitude)

/-! ## Field extraction (src/extract_project_data.py lines 111-143, 380-384) -/

/-- `re.sub(r'\s+', ' ', ·)`: collapse whitespace runs to a single space
(processed right to left: a whitespace character meeting an
already-collapsed space run joins it). -/
def collapseWS : List Char → List Char
  | [] => []
  | a :: rest =>
    let r := collapseWS rest
    if pyIsSpaceChar a then
      match r with
      | ' ' :: tail => ' ' :: tail
      | _ => ' ' :: r
    else a :: r

/-- `clean_text(text)`: strip, then collapse inner whitespace. -/
def clean_text (s : String) : String :=
  String.mk (collapseWS (pyStripChars s.toList))

/-- The lazy group `(.*?)` without DOTALL, read until the first stop marker
or `$` (`$` also matches just before a final newline); a newline elsewhere
makes the match attempt fail. -/
def groupScanStops (stops : List (List Char)) (acc : List Char) :
    List Char → Option (List Char)
  | [] => some acc.reverse
  | c :: rest =>
    if stops.any (fun st => (matchCIAt st (c :: rest)).isSome) then some acc.reverse
    else if c = '\n' then (if rest.isEmpty then some acc.reverse else none)
    else groupScanStops stops (c :: acc) rest

/-- `LABEL[:\s]+(.*?)(?:STOP1|STOP2|$)` at one position. -/
def tryLabelGroup (label : List Char) (stops : List (List Char)) (l : List Char) :
    Option (List Char) :=
  (matchCIAt label l).bind fun r =>
    match r with
    | c :: _ =>
      if colonOrSpace c then groupScanStops stops [] (r.dropWhile colonOrSpace)
      else none
    | [] => none

/-- IGNORECASE search for `LABEL[:\s]+(.*?)(?:STOPS|$)`. -/
def labelGroupSearch (label : List Char) (stops : List (List Char)) (l : List Char) :
    Option (List Char) :=
  searchList (tryLabelGroup label stops) l

/-- `re.search(r'Project Status[:\s]+(.*?)(?:Start Date|Proposed|$)', all_text)`. -/
def searchProjectStatus (allText : List Char) : Option String :=
  (labelGroupSearch "project status".toList ["start date".toList, "proposed".toList]
    allText).map String.mk

/-- `re.search(r'Project Type[:\s]+(.*?)(?:Project Status|$)', all_text)`. -/
def searchProjectType (allText : List Char) : Option String :=
  (labelGroupSearch "project type".toList ["project status".toList] allText).map String.mk

/-- The part of `l` before the first occurrence of the literal `lit`
(`str.split(lit)[0]`, case-sensitive). -/
def beforeFirstLit (lit : List Char) : List Char → List Char
  | [] => []
  | c :: rest =>
    if startsWithChars (c :: rest) lit then []
    else c :: beforeFirstLit lit rest

/-- The part of `l` after the last occurrence of the literal `lit`
(`str.split(lit)[-1]` when `lit` occurs). -/
def afterLastLit (lit : List Char) : List Char → Option (List Char)
  | [] => none
  | c :: rest =>
    match afterLastLit lit rest with
    | some r => some r
    | none =>
      if startsWithChars (c :: rest) lit then some ((c :: rest).drop lit.length)
      else none

/-- Field `status` (lines 125-129): the anchored regex over the body text is
consulted first, the `project_status` key-value entry only as fallback. -/
def extractStatus (kv : List (String × String)) (allText : String) : String :=
  match searchProjectStatus allText.toList with
  | some g => clean_text g
  | none =>
    match kv.lookup "project_status" with
    | some v => clean_text v
    | none => ""

/-- Field `type` (lines 118-122): regex first, key-value fallback (which is
additionally truncated at a literal "Project Status" and stripped). -/
def extractType (kv : List (String × String)) (allText : String) : String :=
  match searchProjectType allText.toList with
  | some g => clean_text g
  | none =>
    match kv.lookup "project_type" with
    | some v => pyStrip (String.mk (beforeFirstLit "Project Status".toList (clean_text v).toList))
    | none => ""

/-- `Start Date[:\s]+(?:At the time of Registration[:\s]+)?(\d{2}-\d{2}-\d{4})`
at one position. -/
def tryStartDate (l : List Char) : Option (List Char) :=
  (matchCIAt "start date".toList l).bind fun r =>
    match r with
    | c :: _ =>
      if colonOrSpace c then
        let r2 := r.dropWhile colonOrSpace
        match (matchCIAt "at the time of registration".toList r2).bind (fun r3 =>
            match r3 with
            | d :: _ => if colonOrSpace d then dateAtHead (r3.dropWhile colonOrSpace) else none
            | [] => none) with
        | some g => some g
        | none => dateAtHead r2
      else none
    | [] => none

/-- `Proposed Completion Date[:\s]+(\d{2}-\d{2}-\d{4})` at one position. -/
def tryCompletionDate (l : List Char) : Option (List Char) :=
  (matchCIAt "proposed completion date".toList l).bind fun r =>
    match r with
    | c :: _ => if colonOrSpace c then dateAtHead (r.dropWhile colonOrSpace) else none
    | [] => none

/-- Fields `start_date` and `completion_date` (lines 132-143): the
`project_start_date` key-value entry is read first, then a successful regex
match against the body text unconditionally replaces it. -/
def extractDates (kv : List (String × String)) (allText : String) : String × String :=
  let fromKv :=
    match kv.lookup "project_start_date" with
    | some ds =>
      let sd := (extract_date ds).getD ""
      let cdSrc :=
        if hasSubChars ds.toList "Proposed Completion Date".toList then
          String.mk ((afterLastLit "Proposed Completion Date".toList ds.toList).getD ds.toList)
        else ""
      (sd, (extract_date cdSrc).getD "")
    | none => ("", "")
  let sd :=
    match searchList tryStartDate allText.toList with
    | some d => String.mk d
    | none => fromKv.1
  let cd :=
    match searchList tryCompletionDate allText.toList with
    | some d => String.mk d
    | none => fromKv.2
  (sd, cd)

/-- `Total Number of Sites/Plots[:\s]*(\d+)` at one position. -/
def tryTotalPlots (l : List Char) : Option (List Char) :=
  (matchCIAt "total number of sites/plots".toList l).bind fun r =>
    let g := (r.dropWhile colonOrSpace).takeWhile pyIsDigit
    if g.isEmpty then none else some g

/-- Field `total_plots` (lines 380-384): regex first, `number_of_plots`
key-value entry as fallback, default 0. -/
def extractTotalPlots (kv : List (String × String)) (allText : String) : ℕ :=
  match searchList tryTotalPlots allText.toList with
  | some g => natOfDigits g
  | none =>
    match kv.lookup "number_of_plots" with
    | some v => (extract_number v).getD 0
    | none => 0

/-! ## Table-derived rows (src/extract_project_data.py lines 441-478) -/

/-- `list(table["data"][0].keys())`. -/
def headerTokens (rs : List (List (String × String))) : List String :=
  (rs.headD []).map Prod.fst

/-- Chained `row.get(k1, row.get(k2, ...))` with a final default. -/
def rowGet (row : List (String × String)) (keys : List String) (dflt : String) : String :=
  match keys with
  | [] => dflt
  | k :: rest =>
    match row.lookup k with
    | some v => v
    | none => rowGet row rest dflt

structure PlotType where
  sl_no : String
  type : String
  number : ℕ
  area : ℕ
deriving DecidableEq, Repr

/-- One aggregate plot-type entry from a data row. -/
def mkPlotType (row : List (String × String)) : PlotType :=
  { sl_no := rowGet row ["Sl No.", "sl_no"] ""
    type := rowGet row ["Plot Type", "type", "Site Dimension"] ""
    number := (extract_number (rowGet row ["Number of Sites", "number", "Number"] "0")).getD 0
    area := (extract_number (rowGet row ["Total Area", "area", "Area"] "0")).getD 0 }

/-- Header-token test for a plot-type table. -/
def plotTypeTableMatch (headers : List String) : Bool :=
  headers.any (fun h =>
    hasSubCI h.toList "plot".toList || hasSubCI h.toList "type".toList ||
      hasSubCI h.toList "dimension".toList)

/-- Plot-type extraction: scan every header-bearing table whose headers
mention plot/type/dimension; iterate `table["data"][1:]` (the source's
`# Skip header row` comment — `data` holds only data rows, so this drops the
first data row); keep rows with a non-empty type and a positive number. -/
def extract_plot_types (tables : List PTable) : List PlotType :=
  tables.foldl (fun acc t =>
    match t.data with
    | .rows rs =>
      if t.has_header && !rs.isEmpty && plotTypeTableMatch (headerTokens rs) then
        acc ++ ((rs.drop 1).filterMap (fun row =>
          let pt := mkPlotType row
          if !pt.type.isEmpty && pt.number > 0 then some pt else none))
      else acc
    | .raw _ => acc) []

structure PlotRow where
  sl_no : String
  plot_no : String
  type : String
  size : String
  area : ℚ
  north : String
  south : String
  east : String
  west : String
deriving DecidableEq, Repr

/-- One individual plot entry from a data row. -/
def mkPlotRow (row : List (String × String)) : PlotRow :=
  { sl_no := rowGet row ["Sl No.", "sl_no"] ""
    plot_no := rowGet row ["Plot No.", "plot_no", "Plot No"] ""
    type := rowGet row ["Plot Type", "type"] ""
    size := rowGet row ["Plot Size", "size"] ""
    area := (extract_float (rowGet row ["Plot Area", "area", "Area"] "0")).getD 0
    north := rowGet row ["North Schedule", "north", "North"] ""
    south := rowGet row ["South Schedule", "south", "South"] ""
    east := rowGet row ["East Schedule", "east", "East"] ""
    west := rowGet row ["West Schedule", "west", "West"] "" }

/-- Header-token test for an individual-plot table. -/
def plotTableMatch (headers : List String) : Bool :=
  headers.any (fun h => hasSubCI h.toList "plot no".toList) &&
    headers.any (fun h =>
      hasSubCI h.toList "north".toList || hasSubCI h.toList "schedule".toList)

/-- Individual-plot extraction: same `data[1:]` iteration; keep rows with a
non-empty plot number. -/
def extract_plots (tables : List PTable) : List PlotRow :=
  tables.foldl (fun acc t =>
    match t.data with
    | .rows rs =>
      if t.has_header && !rs.isEmpty && plotTableMatch (headerTokens rs) then
        acc ++ ((rs.drop 1).filterMap (fun row =>
          let pl := mkPlotRow row
          if !pl.plot_no.isEmpty then some pl else none))
      else acc
    | .raw _ => acc) []

/-! ## Shape predicates used in the statements -/

/-- A character allowed in a normalized section key: `[a-z0-9_]`. -/
def goodKeyChar (c : Char) : Bool := pyIsLowerChar c || pyIsDigit c || c = '_'

/-- No two adjacent underscores. -/
def noDoubleU : List Char → Bool
  | [] => true
  | [_] => true
  | a :: b :: rest => !(a = '_' && b = '_') && noDoubleU (b :: rest)

/-- The key shape stated by the specification: non-empty, `^[a-z0-9_]+$`,
no leading, trailing or doubled underscore. -/
def goodSectionKey (s : String) : Bool :=
  !s.toList.isEmpty && s.toList.all goodKeyChar && noDoubleU s.toList &&
    !(s.toList.head? == some '_') && !(s.toList.getLast? == some '_')

/-- The keys of the section mapping, in iteration order. -/
def keysOf (secs : List (String × DocSection)) : List String := secs.map Prod.fst

/-! # Helper lemmas -/

theorem lookup_eq_none_iff {α : Type} (k : String) (l : List (String × α)) :
    l.lookup k = none ↔ k ∉ l.map Prod.fst := by
  induction l with
  | nil => simp
  | cons p rest ih =>
    obtain ⟨a, b⟩ := p
    by_cases hk : k = a
    · subst hk; simp [List.lookup_cons]
    · simp only [List.lookup_cons, beq_false_of_ne hk, List.map_cons, List.mem_cons, ih]
      constructor
      · intro hm
        rintro (rfl | hmem)
        · exact hk rfl
        · exact hm hmem
      · intro hm hmem
        exact hm (Or.inr hmem)

theorem lookup_updateSectionAt (secs : List (String × DocSection)) (k : String)
    (f : DocSection → DocSection) :
    (updateSectionAt secs k f).lookup k = (secs.lookup k).map f := by
  induction secs with
  | nil => rfl
  | cons p rest ih =>
    obtain ⟨a, s⟩ := p
    by_cases hk : a = k
    · subst hk
      simp [updateSectionAt, List.lookup_cons]
    · simp only [updateSectionAt, if_neg hk, List.lookup_cons,
        beq_false_of_ne (Ne.symm hk), ih]

theorem keysOf_updateSectionAt (secs : List (String × DocSection)) (k : String)
    (f : DocSection → DocSection) :
    keysOf (updateSectionAt secs k f) = keysOf secs := by
  induction secs with
  | nil => rfl
  | cons p rest ih =>
    by_cases hk : p.1 = k <;> simp [updateSectionAt, keysOf, hk] <;>
      simpa [keysOf] using ih

theorem keysOf_appendTableToFirst (secs : List (String × DocSection)) (t : PTable) :
    keysOf (appendTableToFirst secs t) = keysOf secs := by
  cases secs with
  | nil => rfl
  | cons p rest => obtain ⟨a, s⟩ := p; simp [appendTableToFirst, keysOf]

theorem keysOf_associate_tables (secs : List (String × DocSection)) (tables : List PTable) :
    keysOf (associate_tables secs tables) = keysOf secs := by
  induction tables generalizing secs with
  | nil => rfl
  | cons t ts ih =>
    have h1 : associate_tables secs (t :: ts) =
        associate_tables (appendTableToFirst secs t) ts := rfl
    rw [h1, ih, keysOf_appendTableToFirst]

theorem keysOf_assignParagraphs (st : BuildState) (n : ℕ) (pc : PageContent) :
    keysOf (assignParagraphs st n pc).sections = keysOf st.sections := by
  unfold assignParagraphs
  cases st.current_section <;> simp [keysOf_updateSectionAt]

theorem kvfold_keys (pairs : List (String × String)) (acc : BuildState × PageContent) :
    keysOf (pairs.foldl kvPairStep acc).1.sections = keysOf acc.1.sections := by
  induction pairs generalizing acc with
  | nil => rfl
  | cons pr rest ih =>
    have h1 : (pr :: rest).foldl kvPairStep acc = rest.foldl kvPairStep (kvPairStep acc pr) := rfl
    rw [h1, ih]
    unfold kvPairStep
    cases acc.1.current_section <;> simp [keysOf_updateSectionAt]

theorem headingLineStep_nodup (ls : LineLoopState) (text : String)
    (h : (keysOf ls.st.sections).Nodup) :
    (keysOf (headingLineStep ls text).st.sections).Nodup := by
  unfold headingLineStep
  by_cases hl : (ls.st.sections.lookup (normalize_section_name text)).isNone
  · have hk : normalize_section_name text ∉ ls.st.sections.map Prod.fst := by
      rw [← lookup_eq_none_iff]
      exact Option.isNone_iff_eq_none.mp hl
    simp only [hl, if_true, keysOf, List.map_append, List.map_cons, List.map_nil]
    rw [List.nodup_append]
    refine ⟨h, List.nodup_singleton _, ?_⟩
    intro a ha hb
    simp only [List.mem_singleton] at hb
    subst hb
    exact hk ha
  · simp only [hl, if_false]
    exact h

theorem kvLineStep_keys (ls : LineLoopState) (text : String) :
    keysOf (kvLineStep ls text).st.sections = keysOf ls.st.sections := by
  unfold kvLineStep
  by_cases h : (extract_key_value_pairs text).isEmpty
  · simp [h]
  · simp only [h, if_false, Bool.false_eq_true]
    exact kvfold_keys _ _

theorem process_line_cases (ls : LineLoopState) (line : LineInfo) :
    process_line ls line = ls ∨
    (∃ t, process_line ls line = headingLineStep ls t) ∨
    (∃ t, process_line ls line = kvLineStep ls t) ∨
    (∃ t, process_line ls line = listLineStep ls t) ∨
    (∃ t, process_line ls line = paragraphLineStep ls t) := by
  simp only [process_line]
  split
  · exact Or.inl rfl
  · split
    · exact Or.inr (Or.inl ⟨_, rfl⟩)
    · split
      · exact Or.inr (Or.inr (Or.inl ⟨_, rfl⟩))
      · split
        · exact Or.inr (Or.inr (Or.inr (Or.inl ⟨_, rfl⟩)))
        · exact Or.inr (Or.inr (Or.inr (Or.inr ⟨_, rfl⟩)))

theorem process_line_nodup (ls : LineLoopState) (line : LineInfo)
    (h : (keysOf ls.st.sections).Nodup) :
    (keysOf (process_line ls line).st.sections).Nodup := by
  rcases process_line_cases ls line with hc | ⟨t, hc⟩ | ⟨t, hc⟩ | ⟨t, hc⟩ | ⟨t, hc⟩ <;> rw [hc]
  · exact h
  · exact headingLineStep_nodup ls t h
  · rw [kvLineStep_keys]; exact h
  · exact h
  · exact h

theorem lineFold_nodup (lines : List LineInfo) (ls : LineLoopState)
    (h : (keysOf ls.st.sections).Nodup) :
    (keysOf ((lines.foldl process_line ls).st.sections)).Nodup := by
  induction lines generalizing ls with
  | nil => exact h
  | cons l rest ih => exact ih _ (process_line_nodup _ _ h)

theorem process_page_nodup (st : BuildState) (page : PageInput)
    (h : (keysOf st.sections).Nodup) :
    (keysOf (process_page st page).1.sections).Nodup := by
  unfold process_page
  rw [keysOf_assignParagraphs]
  exact lineFold_nodup _ _ h

theorem buildFold_nodup (pages : List PageInput) (acc : BuildState × List PageContent)
    (h : (keysOf acc.1.sections).Nodup) :
    (keysOf ((pages.foldl buildStep acc).1.sections)).Nodup := by
  induction pages generalizing acc with
  | nil => exact h
  | cons p rest ih => exact ih _ (process_page_nodup _ _ h)

/-! # Claim theorems -/

/-- C8: any two headings whose texts normalize to the same key map to the
same Section: the built section mapping never contains a duplicate key (for
any page sequence), the example headings "Project Description!!" and
"PROJECT DESCRIPTION" share the key `project_description`, and a concrete
two-page document with those two headings yields one single Section whose
content is concatenated in page order. -/
theorem c8_section_identity :
    (∀ (pages : List PageInput) (tables : List PTable),
      (keysOf (build_json_structure pages tables).sections).Nodup) ∧
    normalize_section_name "Project Description!!" = "project_description" ∧
    normalize_section_name "PROJECT DESCRIPTION" = "project_description" ∧
    (build_json_structure
        [⟨1, [⟨"Project Description!!", none, true⟩, ⟨"First part.", none, false⟩]⟩,
         ⟨2, [⟨"PROJECT DESCRIPTION", none, false⟩, ⟨"Second part.", none, false⟩]⟩] []).sections =
      [("project_description",
        { heading := "Project Description!!", content := ["First part.", "Second part."],
          key_value_pairs := [], tables := [] })] := by
  refine ⟨fun pages tables => ?_, rfl, rfl, rfl⟩
  unfold build_json_structure
  rw [keysOf_associate_tables]
  exact buildFold_nodup pages (initialBuildState, []) (by simp [keysOf, initialBuildState])

/-- C9: `is_valid_coord` accepts a latitude exactly on the strict open
interval (10, 17) and a longitude exactly on (73, 79); the value 0.0 is
rejected for every coordinate type; latitude 13.25 and longitude 77.5 are
accepted, latitude 0.0 and latitude 20.0 are rejected. -/
theorem c9_is_valid_coord_spec :
    (∀ v : ℚ, is_valid_coord v "lat" = true ↔ (10 < v ∧ v < 17)) ∧
    (∀ v : ℚ, is_valid_coord v "lon" = true ↔ (73 < v ∧ v < 79)) ∧
    (∀ t : String, is_valid_coord 0 t = false) ∧
    is_valid_coord (1325 / 100) "lat" = true ∧
    is_valid_coord (775 / 10) "lon" = true ∧
    is_valid_coord 0 "lat" = false ∧
    is_valid_coord 20 "lat" = false := by
  have hlat : ∀ v : ℚ, is_valid_coord v "lat" = true ↔ (10 < v ∧ v < 17) := by
    intro v
    by_cases hv : v = (0 : ℚ)
    · subst hv; simp [is_valid_coord]
    · simp [is_valid_coord, hv]
  have hlon : ∀ v : ℚ, is_valid_coord v "lon" = true ↔ (73 < v ∧ v < 79) := by
    intro v
    by_cases hv : v = (0 : ℚ)
    · subst hv; simp [is_valid_coord]
    · simp [is_valid_coord, hv]
  have hzero : ∀ t : String, is_valid_coord 0 t = false := by
    intro t; simp [is_valid_coord]
  have h20 := hlat 20
  norm_num at h20
  exact ⟨hlat, hlon, hzero, (hlat _).mpr (by norm_num), (hlon _).mpr (by norm_num),
    hzero _, h20⟩

/-- C1 counterexample: with two sections and two tables, the document
assembler's association loop appends every table to the first section in
iteration order; the first section ends up holding both tables while the
second section holds none, contradicting the claimed one-table-per-section
round-robin rule. -/
theorem c1_table_association_counterexample :
    associate_tables
        [("a", ⟨"A", [], [], []⟩), ("b", ⟨"B", [], [], []⟩)]
        [⟨1, 0, false, .raw [], 0⟩, ⟨2, 0, false, .raw [], 0⟩] =
      [("a", ⟨"A", [], [], [⟨1, 0, false, .raw [], 0⟩, ⟨2, 0, false, .raw [], 0⟩]⟩),
       ("b", ⟨"B", [], [], []⟩)] ∧
    ((associate_tables
        [("a", ⟨"A", [], [], []⟩), ("b", ⟨"B", [], [], []⟩)]
        [⟨1, 0, false, .raw [], 0⟩, ⟨2, 0, false, .raw [], 0⟩]).lookup "a").map
      (fun s => s.tables.length) = some 2 ∧
    ((associate_tables
        [("a", ⟨"A", [], [], []⟩), ("b", ⟨"B", [], [], []⟩)]
        [⟨1, 0, false, .raw [], 0⟩, ⟨2, 0, false, .raw [], 0⟩]).lookup "b").map
      (fun s => s.tables.length) = some 0 := by
  refine ⟨?_, ?_, ?_⟩ <;> rfl

/-- C1 as amended: every extracted table is appended, in order, to the
tables of the *first* section in the section mapping's iteration order
(regardless of how many tables that section already holds); all other
sections receive none, and with no sections the mapping is unchanged. -/
theorem c1_table_association_amended (k : String) (s : DocSection)
    (rest : List (String × DocSection)) (tables : List PTable) :
    associate_tables ((k, s) :: rest) tables =
      (k, { s with tables := s.tables ++ tables }) :: rest ∧
    associate_tables [] tables = [] := by
  constructor
  · induction tables generalizing s with
    | nil => simp [associate_tables]
    | cons t ts ih =>
      have h1 : associate_tables ((k, s) :: rest) (t :: ts) =
          associate_tables ((k, { s with tables := s.tables ++ [t] }) :: rest) ts := rfl
      rw [h1, ih]
      simp
  · induction tables with
    | nil => rfl
    | cons t ts ih => simpa [associate_tables, appendTableToFirst] using ih

/-- C6: on a header-bearing plot-type table whose `data` holds two valid
data rows, only the second row produces a `plot_types` entry — the loop
`for row in table["data"][1:]` (commented "Skip header row") drops the first
data row even though `data` contains no header row; the analogous
individual-plot loop drops its first data row the same way. -/
theorem c6_first_data_row_dropped :
    extract_plot_types [⟨1, 0, true,
        .rows [[("Sl No.", "1"), ("Plot Type", "30x40"), ("Number of Sites", "10"),
                ("Total Area", "12000")],
               [("Sl No.", "2"), ("Plot Type", "30x50"), ("Number of Sites", "5"),
                ("Total Area", "7500")]], 2⟩] =
      [{ sl_no := "2", type := "30x50", number := 5, area := 7500 }] ∧
    (mkPlotType [("Sl No.", "1"), ("Plot Type", "30x40"), ("Number of Sites", "10"),
        ("Total Area", "12000")]).type = "30x40" ∧
    (mkPlotType [("Sl No.", "1"), ("Plot Type", "30x40"), ("Number of Sites", "10"),
        ("Total Area", "12000")]).number = 10 ∧
    extract_plots [⟨2, 0, true,
        .rows [[("Plot No.", "P1"), ("North Schedule", "Road")],
               [("Plot No.", "P2"), ("North Schedule", "Park")]], 2⟩] =
      [{ sl_no := "", plot_no := "P2", type := "", size := "", area := 0,
         north := "Park", south := "", east := "", west := "" }] := by
  refine ⟨?_, ?_, ?_, ?_⟩ <;> rfl

/-- C2 counterexample: on a page whose lines are a paragraph line "intro"
followed by the heading "OVERVIEW", the paragraph flushed *before* the
heading (while no section was active) is appended to the section that
heading opens, and nothing reaches `unstructured_text` — ownership is not
decided at the moment of flush. -/
theorem c2_paragraph_ownership_counterexample :
    (build_json_structure [⟨1, [⟨"intro", none, false⟩, ⟨"OVERVIEW", none, false⟩]⟩]
        []).unstructured_text = [] ∧
    ((build_json_structure [⟨1, [⟨"intro", none, false⟩, ⟨"OVERVIEW", none, false⟩]⟩]
        []).sections.lookup "overview").map DocSection.content = some ["intro"] := by
  constructor <;> rfl

/-- C5 counterexample: for the status field the key-value entry
`project_status = "New"` is present and usable, yet the extractor returns
the body-text regex match "Ongoing" — the regex source is consulted before
the key-value source; and for the start date the key-value date 01-01-2020
is replaced by the later regex source's 02-02-2021. -/
theorem c5_field_order_counterexample :
    extractStatus [("project_status", "New")] "Project Status: Ongoing" = "Ongoing" ∧
    ([("project_status", "New")] : List (String × String)).lookup "project_status" =
      some "New" ∧
    clean_text "New" = "New" ∧
    ¬("Ongoing" = "New") ∧
    extractDates [("project_start_date", "01-01-2020")] "Start Date: 02-02-2021" =
      ("02-02-2021", "") ∧
    extract_date "01-01-2020" = some "01-01-2020" := by
  refine ⟨?_, ?_, ?_, by decide, ?_, ?_⟩ <;> rfl

/-- C7 counterexample: the heading "a\tb" (an embedded tab) normalizes to
the key "a\tb" — the tab survives `re.sub(r'[^\w\s]', '', ·)` (it is
whitespace) and `replace(' ', '_')` replaces only plain spaces — so the
stored key does not match `^[a-z0-9_]+$`. -/
theorem c7_section_key_shape_counterexample :
    normalize_section_name "a\tb" = "a\tb" ∧
    (normalize_section_name "a\tb").toList.all goodKeyChar = false ∧
    goodSectionKey (normalize_section_name "a\tb") = false := by
  refine ⟨?_, ?_, ?_⟩ <;> rfl

/-- C3 counterexample: the key-value input resolves the longitude 77.5 at
the direct-field step, but the boundary-centroid step — guarded only on the
latitude being unresolved — later overwrites it with 76.25 (= 305/4), so an
accepted value is not kept. -/
theorem c3_coordinate_overwrite_counterexample :
    resolveCoordinates
        [("longitude", "77.5"), ("north_latitude", "13.0North Longitude:76.0"),
         ("south_latitude", "14.0South Longitude:76.5")] "" =
      (some (27 / 2), some (305 / 4)) ∧
    (directCoordStep
        [("longitude", "77.5"), ("north_latitude", "13.0North Longitude:76.0"),
         ("south_latitude", "14.0South Longitude:76.5")]).longitude = some (155 / 2) ∧
    ¬((155 : ℚ) / 2 = 305 / 4) := by
  refine ⟨by with_unfolding_all rfl, by with_unfolding_all rfl, by norm_num⟩

/-- C2 as amended: paragraph ownership is decided at the *end of the page*,
not at the moment of flush: when a section is open after the page's last
line, every paragraph collected on the page (including ones flushed before
that section's heading) is appended to that section's content and
`unstructured_text` is unchanged; when no section is open at page end, all
the page's paragraphs go to `unstructured_text` tagged with the page number
and the sections are unchanged. -/
theorem c2_paragraph_ownership_amended (st : BuildState) (page : PageInput) :
    (∀ k, (pageLineLoop st page).st.current_section = some k →
      ((process_page st page).1.sections.lookup k =
          ((pageLineLoop st page).st.sections.lookup k).map (fun sec =>
            { sec with content :=
                sec.content ++ (pageRecordOf (pageLineLoop st page)).paragraphs }) ∧
        (process_page st page).1.unstructured_text =
          (pageLineLoop st page).st.unstructured_text)) ∧
    ((pageLineLoop st page).st.current_section = none →
      ((process_page st page).1.sections = (pageLineLoop st page).st.sections ∧
        (process_page st page).1.unstructured_text =
          (pageLineLoop st page).st.unstructured_text ++
            (pageRecordOf (pageLineLoop st page)).paragraphs.map
              (fun p => (page.page_number, p)))) := by
  constructor
  · intro k hk
    simp only [process_page, assignParagraphs, hk]
    refine ⟨?_, by simp⟩
    exact lookup_updateSectionAt _ _ _
  · intro hk
    simp only [process_page, assignParagraphs, hk]
    exact ⟨by simp, by simp⟩

theorem updSlot_none_eq_some (kind : String) (v : Option ℚ) (x : ℚ)
    (h : updSlot kind none v = some x) : ¬(x = 0) ∧ is_valid_coord x kind = true := by
  cases v with
  | none => simp [updSlot] at h
  | some y =>
    simp only [updSlot] at h
    split at h
    next hg =>
      cases h
      rw [Bool.and_eq_true, Bool.not_eq_true', decide_eq_false_iff_not] at hg
      exact hg
    next => simp at h

theorem directCoordStep_lat_valid (kv : List (String × String)) (la : ℚ)
    (h : (directCoordStep kv).latitude = some la) : ¬(la = 0) := by
  unfold directCoordStep at h
  simp only at h
  cases hs : kv.lookup "latitude" with
  | none => rw [hs] at h; simp at h
  | some s => rw [hs] at h; exact (updSlot_none_eq_some _ _ _ h).1

theorem directCoordStep_lon_valid (kv : List (String × String)) (lo : ℚ)
    (h : (directCoordStep kv).longitude = some lo) : ¬(lo = 0) := by
  unfold directCoordStep at h
  simp only at h
  cases hs : kv.lookup "longitude" with
  | none => rw [hs] at h; simp at h
  | some s => rw [hs] at h; exact (updSlot_none_eq_some _ _ _ h).1

theorem centroidStep_skip (bc : BoundaryCoords) (p : ProjCoords)
    (h : pyFalsyOpt p.latitude = false) : centroidStep bc p = p := by
  unfold centroidStep
  simp [h]

theorem textLatStep_skip (t : List Char) (p : ProjCoords)
    (h : pyFalsyOpt p.latitude = false) : textLatStep t p = p := by
  unfold textLatStep
  simp [h]

theorem textLonStep_skip (t : List Char) (p : ProjCoords)
    (h : pyFalsyOpt p.longitude = false) : textLonStep t p = p := by
  unfold textLonStep
  simp [h]

theorem textBoundaryStep_skip (t : List Char) (bc : BoundaryCoords) (p : ProjCoords)
    (h1 : pyFalsyOpt p.latitude = false) (h2 : pyFalsyOpt p.longitude = false) :
    textBoundaryStep t bc p = p := by
  unfold textBoundaryStep
  simp [h1, h2]

/-- C3 as amended: a coordinate accepted at an earlier step is preserved
only while the centroid steps cannot fire: when *both* the latitude and the
longitude are accepted at the direct-field step, no later step changes
either of them and the resolved pair equals the direct-field pair.  (The
counterexample shows that when only the longitude is resolved early, the
centroid step — guarded solely on the latitude — replaces it.) -/
theorem c3_coordinate_no_overwrite_amended (kv : List (String × String)) (allText : String)
    (la lo : ℚ)
    (hla : (directCoordStep kv).latitude = some la)
    (hlo : (directCoordStep kv).longitude = some lo) :
    resolveCoordinates kv allText = (some la, some lo) := by
  have hFla : pyFalsyOpt (directCoordStep kv).latitude = false := by
    rw [hla]
    simpa [pyFalsyOpt] using directCoordStep_lat_valid kv la hla
  have hFlo : pyFalsyOpt (directCoordStep kv).longitude = false := by
    rw [hlo]
    simpa [pyFalsyOpt] using directCoordStep_lon_valid kv lo hlo
  unfold resolveCoordinates
  simp only []
  rw [centroidStep_skip _ _ hFla, textLatStep_skip _ _ hFla, textLonStep_skip _ _ hFlo,
    textBoundaryStep_skip _ _ _ hFla hFlo, hla, hlo]

/-- C3 witness: a key-value input with valid direct latitude and longitude
resolves to exactly those values. -/
theorem c3_coordinate_no_overwrite_witness :
    resolveCoordinates [("latitude", "13.25"), ("longitude", "77.5")] "body text" =
      (some (53 / 4), some (155 / 2)) :=
  c3_coordinate_no_overwrite_amended _ _ _ _ (by with_unfolding_all rfl)
    (by with_unfolding_all rfl)

/-- C5 as amended: for the status field (and likewise the total-plots
field) the anchored body-text regex is consulted *first* and the key-value
entry only as fallback — the reverse of the claimed order; for the start
date the key-value entry is read first but a successful body-text regex
match unconditionally replaces it, so the first successful source does not
always win. -/
theorem c5_field_order_amended :
    (∀ (kv : List (String × String)) (allText : String) (g : String),
      searchProjectStatus allText.toList = some g → extractStatus kv allText = clean_text g) ∧
    (∀ (kv : List (String × String)) (allText : String) (v : String),
      searchProjectStatus allText.toList = none → kv.lookup "project_status" = some v →
        extractStatus kv allText = clean_text v) ∧
    (∀ (kv : List (String × String)) (allText : String),
      searchProjectStatus allText.toList = none → kv.lookup "project_status" = none →
        extractStatus kv allText = "") ∧
    (∀ (kv : List (String × String)) (allText : String) (d : List Char),
      searchList tryStartDate allText.toList = some d →
        (extractDates kv allText).1 = String.mk d) ∧
    (∀ (kv : List (String × String)) (allText : String) (ds : String),
      searchList tryStartDate allText.toList = none →
        kv.lookup "project_start_date" = some ds →
        (extractDates kv allText).1 = (extract_date ds).getD "") ∧
    (∀ (kv : List (String × String)) (allText : String) (g : List Char),
      searchList tryTotalPlots allText.toList = some g →
        extractTotalPlots kv allText = natOfDigits g) ∧
    (∀ (kv : List (String × String)) (allText : String) (v : String),
      searchList tryTotalPlots allText.toList = none → kv.lookup "number_of_plots" = some v →
        extractTotalPlots kv allText = (extract_number v).getD 0) := by
  refine ⟨?_, ?_, ?_, ?_, ?_, ?_, ?_⟩
  · intro kv allText g h
    have h' : searchProjectStatus allText.data = some g := h
    simp [extractStatus, h']
  · intro kv allText v h1 h2
    have h1' : searchProjectStatus allText.data = none := h1
    simp [extractStatus, h1', h2]
  · intro kv allText h1 h2
    have h1' : searchProjectStatus allText.data = none := h1
    simp [extractStatus, h1', h2]
  · intro kv allText d h
    have h' : searchList tryStartDate allText.data = some d := h
    simp [extractDates, h']
  · intro kv allText ds h1 h2
    have h1' : searchList tryStartDate allText.data = none := h1
    simp [extractDates, h1', h2]
  · intro kv allText g h
    have h' : searchList tryTotalPlots allText.data = some g := h
    simp [extractTotalPlots, h']
  · intro kv allText v h1 h2
    have h1' : searchList tryTotalPlots allText.data = none := h1
    simp [extractTotalPlots, h1', h2]

/-- C4 counterexample: `has_header` is not a function of the first row
alone — a one-row grid with a header-like first row yields `false` while
the same first row with a second row yields `true`; and an empty leading
cell does not force `false` (empty cells are filtered out of the check). -/
theorem c4_has_header_counterexample :
    (computeTableData [[some "Name"]]).1 = false ∧
    (computeTableData [[some "Name"], [some "x"]]).1 = true ∧
    (computeTableData [[some "", some "Name"], [some "1", some "2"]]).1 = true := by
  refine ⟨?_, ?_, ?_⟩ <;> rfl

theorem detect_heading_iff (text : String) (fs : Option ℚ) (b : Bool) :
    detect_heading text fs b = true ↔
      (pyStripChars text.toList ≠ [] ∧ (pyStripChars text.toList).length < 80 ∧
        ((pyIsUpperStr (pyStripChars text.toList) = true ∧
            3 < (pyStripChars text.toList).length) ∨
          b = true ∨ (∃ q, fs = some q ∧ 12 < q))) := by
  unfold detect_heading
  simp only []
  set t := pyStripChars text.toList with ht
  by_cases h1 : t.isEmpty
  · simp [h1, List.isEmpty_iff.mp h1]
  · have h1' : t ≠ [] := by simpa [List.isEmpty_iff] using h1
    simp only [h1, Bool.false_eq_true, if_false]
    by_cases h2 : t.length < 80
    · rw [if_pos h2]
      by_cases h3 : pyIsUpperStr t = true
      · by_cases h4 : 3 < t.length
        · simp [h3, h4, h1', h2]
        · cases b with
          | true => simp [h3, h4, h1', h2]
          | false =>
            cases fs with
            | none => simp [h3, h4, h1', h2]
            | some q =>
              by_cases h5 : q = 0
              · simp [h3, h4, h1', h2, h5]
              · by_cases h6 : (12 : ℚ) < q
                · simp [h3, h4, h1', h2, h5, h6]
                · simp [h3, h4, h1', h2, h5, h6]
      · cases b with
        | true => simp [h3, h1', h2]
        | false =>
          cases fs with
          | none => simp [h3, h1', h2]
          | some q =>
            by_cases h5 : q = 0
            · simp [h3, h1', h2, h5]
            · by_cases h6 : (12 : ℚ) < q
              · simp [h3, h1', h2, h5, h6]
              · simp [h3, h1', h2, h5, h6]
    · rw [if_neg h2]
      simp [h2]

/-- C10: the classifier is a total function on lines; a line is tagged
Heading exactly when its stripped text is non-empty, shorter than 80
characters, and fully upper-case with more than 3 characters, or bold, or
in a font larger than 12; and the tags are tested in the order Heading,
KeyValue, ListItem with Paragraph as the default, the first match winning. -/
theorem c10_line_classifier_spec :
    ∀ (text : String) (fs : Option ℚ) (b : Bool),
      (classify_line text fs b = .heading ↔
        (pyStripChars text.toList ≠ [] ∧ (pyStripChars text.toList).length < 80 ∧
          ((pyIsUpperStr (pyStripChars text.toList) = true ∧
              3 < (pyStripChars text.toList).length) ∨
            b = true ∨ (∃ q, fs = some q ∧ 12 < q)))) ∧
      (classify_line text fs b = .keyValue ↔
        (detect_heading text fs b = false ∧
          kv_line_condition (pyStripChars text.toList) = true)) ∧
      (classify_line text fs b = .listItem ↔
        (detect_heading text fs b = false ∧
          kv_line_condition (pyStripChars text.toList) = false ∧
          is_list_line (pyStripChars text.toList) = true)) ∧
      (classify_line text fs b = .paragraph ↔
        (detect_heading text fs b = false ∧
          kv_line_condition (pyStripChars text.toList) = false ∧
          is_list_line (pyStripChars text.toList) = false)) := by
  intro text fs b
  rw [← detect_heading_iff]
  by_cases hd : detect_heading text fs b = true <;>
    by_cases hkv : kv_line_condition (pyStripChars text.toList) = true <;>
      by_cases hl : is_list_line (pyStripChars text.toList) = true <;>
        simp [classify_line, hd, hkv, hl, Bool.not_eq_true] at * <;>
          simp [classify_line, hd, hkv, hl]

theorem first_row_header_check_iff (fr : List (Option String)) :
    first_row_header_check fr = true ↔
      (fr ≠ [] ∧ ∀ cell ∈ fr.take 5, pyTruthyCell cell = true →
        ∃ s, cell = some s ∧ (pyStripChars s.toList).length < 50 ∧
          decimalCellMatch (pyStripChars s.toList) = false) := by
  unfold first_row_header_check
  rw [Bool.and_eq_true, List.all_eq_true]
  constructor
  · rintro ⟨hne, hall⟩
    refine ⟨by simpa [List.isEmpty_iff] using hne, ?_⟩
    intro cell hmem htruth
    have h := hall cell (List.mem_filter.mpr ⟨hmem, htruth⟩)
    cases cell with
    | none => simp [pyTruthyCell] at htruth
    | some s =>
      rw [Bool.and_eq_true] at h
      have h2 := h.2
      rw [Bool.and_eq_true] at h2
      refine ⟨s, rfl, by simpa using h2.1, by simpa using h2.2⟩
  · rintro ⟨hne, h⟩
    refine ⟨by simpa [List.isEmpty_iff] using hne, ?_⟩
    intro cell hmem
    rw [List.mem_filter] at hmem
    obtain ⟨s, rfl, hlen, hdec⟩ := h cell hmem.1 hmem.2
    rw [Bool.and_eq_true]
    refine ⟨hmem.2, ?_⟩
    rw [Bool.and_eq_true]
    exact ⟨by simpa using hlen, by simpa using hdec⟩

theorem computeTableData_fst (fr : List (Option String)) (rest : List (List (Option String)))
    (h : 0 < rest.length) :
    (computeTableData (fr :: rest)).1 = first_row_header_check fr := by
  unfold computeTableData
  rw [if_pos (by simp [List.length_cons]; omega)]
  dsimp only
  by_cases hc : first_row_header_check fr = true
  · rw [if_pos hc, hc]
  · rw [if_neg hc]
    simp only [Bool.not_eq_true] at hc
    rw [hc]

/-- C4 as amended: `has_header` is true exactly when the grid has more than
one row, its first row is a non-empty list, and every *truthy* cell among
the first row's first five entries strips to fewer than 50 characters and
does not match the pure-decimal pattern; empty cells among those five are
skipped rather than failing the check, and the row count matters. -/
theorem c4_has_header_amended (grid : List (List (Option String))) :
    (computeTableData grid).1 = true ↔
      (1 < grid.length ∧ grid.headD [] ≠ [] ∧
        ∀ cell ∈ (grid.headD []).take 5, pyTruthyCell cell = true →
          ∃ s, cell = some s ∧ (pyStripChars s.toList).length < 50 ∧
            decimalCellMatch (pyStripChars s.toList) = false) := by
  cases grid with
  | nil => simp [computeTableData]
  | cons fr rest =>
    cases rest with
    | nil => simp [computeTableData]
    | cons r2 rs =>
      have hl : 1 < (fr :: r2 :: rs).length := by
        simp [List.length_cons]
      rw [computeTableData_fst fr (r2 :: rs) (by simp), first_row_header_check_iff]
      simp only [List.headD_cons, hl, true_and]

theorem stripBoth_subset (p : Char → Bool) (l : List Char) (a : Char)
    (h : a ∈ ((l.dropWhile p).reverse.dropWhile p).reverse) : a ∈ l := by
  rw [List.mem_reverse] at h
  have h1 := (List.dropWhile_suffix p).subset h
  rw [List.mem_reverse] at h1
  exact (List.dropWhile_suffix p).subset h1

theorem stripBoth_last (p : Char → Bool) (l : List Char) (a : Char)
    (h : (((l.dropWhile p).reverse.dropWhile p).reverse).getLast? = some a) : p a = false := by
  rw [List.getLast?_reverse] at h
  have h2 := List.head?_dropWhile_not p ((l.dropWhile p).reverse)
  rw [h] at h2
  exact h2

theorem stripBoth_head (p : Char → Bool) (l : List Char) (a : Char)
    (h : (((l.dropWhile p).reverse.dropWhile p).reverse).head? = some a) : p a = false := by
  rw [List.head?_reverse] at h
  obtain ⟨t, ht⟩ := List.dropWhile_suffix (l := (l.dropWhile p).reverse) p
  have h2 : ((l.dropWhile p).reverse).getLast? = some a := by
    rw [← ht, List.getLast?_append, h]
    rfl
  rw [List.getLast?_reverse] at h2
  have h3 := List.head?_dropWhile_not p l
  rw [h2] at h3
  exact h3

theorem collapse_mem (l : List Char) (c : Char) (h : c ∈ collapseUnderscores l) : c ∈ l := by
  induction l with
  | nil => simp [collapseUnderscores] at h
  | cons a rest ih =>
    rw [collapseUnderscores] at h
    cases hr : collapseUnderscores rest with
    | nil =>
      rw [hr] at h
      simp only [List.mem_singleton] at h
      simp [h]
    | cons b tail =>
      rw [hr] at h
      dsimp only at h
      by_cases hab : (a = '_' && b = '_') = true
      · rw [if_pos hab] at h
        exact List.mem_cons_of_mem a (ih (hr ▸ h))
      · rw [if_neg hab] at h
        rcases List.mem_cons.mp h with rfl | h2
        · exact List.mem_cons_self _ _
        · exact List.mem_cons_of_mem a (ih (hr ▸ h2))

theorem collapse_chain (l : List Char) :
    (collapseUnderscores l).Chain' (fun a b => ¬(a = '_' ∧ b = '_')) := by
  induction l with
  | nil => simp [collapseUnderscores]
  | cons a rest ih =>
    rw [collapseUnderscores]
    cases hr : collapseUnderscores rest with
    | nil => simp
    | cons b tail =>
      rw [hr] at ih
      dsimp only
      by_cases hab : (a = '_' && b = '_') = true
      · rw [if_pos hab]
        exact ih
      · rw [if_neg hab]
        rw [List.chain'_cons]
        refine ⟨?_, ih⟩
        rintro ⟨ha, hb⟩
        exact hab (by simp [ha, hb])

theorem noDoubleU_iff_chain :
    ∀ l : List Char, noDoubleU l = true ↔ l.Chain' (fun a b => ¬(a = '_' ∧ b = '_'))
  | [] => by simp [noDoubleU]
  | [a] => by simp [noDoubleU]
  | a :: b :: rest => by
    rw [noDoubleU, Bool.and_eq_true, List.chain'_cons, noDoubleU_iff_chain (b :: rest)]
    constructor
    · rintro ⟨hn, hc⟩
      refine ⟨?_, hc⟩
      rintro ⟨ha, hb⟩
      simp [ha, hb] at hn
    · rintro ⟨hn, hc⟩
      refine ⟨?_, hc⟩
      rw [Bool.not_eq_true', Bool.and_eq_false_iff]
      by_cases ha : a = '_'
      · right
        simp only [decide_eq_false_iff_not]
        intro hb
        exact hn ⟨ha, hb⟩
      · left
        simp only [decide_eq_false_iff_not]
        exact ha

theorem chain'_reverse_of_symm {R : Char → Char → Prop} (hsym : ∀ a b, R a b → R b a)
    (l : List Char) (h : l.Chain' R) : l.reverse.Chain' R :=
  List.chain'_reverse.mpr (h.imp fun a b hr => hsym a b hr)

theorem stripUnderscores_chain (l : List Char)
    (h : l.Chain' (fun a b => ¬(a = '_' ∧ b = '_'))) :
    (stripUnderscores l).Chain' (fun a b => ¬(a = '_' ∧ b = '_')) := by
  have hsym : ∀ a b : Char, (¬(a = '_' ∧ b = '_')) → ¬(b = '_' ∧ a = '_') := by tauto
  have h1 : (l.dropWhile (fun c => c = '_')).Chain' (fun a b => ¬(a = '_' ∧ b = '_')) :=
    h.infix (List.IsSuffix.isInfix (List.dropWhile_suffix _))
  have h2 := chain'_reverse_of_symm hsym _ h1
  have h3 : (((l.dropWhile (fun c => c = '_')).reverse.dropWhile
      (fun c => c = '_'))).Chain' (fun a b => ¬(a = '_' ∧ b = '_')) :=
    h2.infix (List.IsSuffix.isInfix (List.dropWhile_suffix _))
  exact chain'_reverse_of_symm hsym _ h3

theorem ascii_char_good (d : Char) (hd : d.toNat < 128)
    (hsp : pyIsSpaceChar d = true → d = ' ')
    (hw : (pyIsWordChar d || pyIsSpaceChar d) = true) :
    goodKeyChar (if pyToLowerChar d = ' ' then '_' else pyToLowerChar d) = true := by
  have key : ∀ n : Fin 128,
      (pyIsSpaceChar (Char.ofNat n.val) = true → Char.ofNat n.val = ' ') →
      (pyIsWordChar (Char.ofNat n.val) || pyIsSpaceChar (Char.ofNat n.val)) = true →
      goodKeyChar (if pyToLowerChar (Char.ofNat n.val) = ' ' then '_'
        else pyToLowerChar (Char.ofNat n.val)) = true := by decide
  have h3 := key ⟨d.toNat, hd⟩
  rw [show Char.ofNat (⟨d.toNat, hd⟩ : Fin 128).val = d from Char.ofNat_toNat d] at h3
  exact h3 hsp hw

/-- C7 as amended: for every heading made of ASCII characters whose
whitespace characters are all plain spaces, the normalized section key is
non-empty, uses only `[a-z0-9_]`, and has no leading, trailing or doubled
underscore (the empty case falling back to `unnamed_section`, which has the
same shape).  The counterexample shows the restriction is needed: other
whitespace (a tab) survives normalization. -/
theorem c7_section_key_shape_amended (heading : String)
    (h : ∀ c ∈ heading.toList, c.toNat < 128 ∧ (pyIsSpaceChar c = true → c = ' ')) :
    goodSectionKey (normalize_section_name heading) = true := by
  unfold normalize_section_name
  simp only []
  set m := ((pyStripChars (pyToLower
      (heading.toList.filter fun c => pyIsWordChar c || pyIsSpaceChar c))).map
    fun c => if c = ' ' then '_' else c) with hm
  by_cases hemp : (stripUnderscores (collapseUnderscores m)).isEmpty
  · rw [if_pos hemp]
    decide
  · rw [if_neg hemp]
    set final := stripUnderscores (collapseUnderscores m) with hfinal
    have hToList : (String.mk final).toList = final := rfl
    have hmem : ∀ c ∈ final, goodKeyChar c = true := by
      intro c hc
      have hc1 : c ∈ collapseUnderscores m :=
        stripBoth_subset (fun d => d = '_') _ c hc
      have hc2 : c ∈ m := collapse_mem _ _ hc1
      rw [hm, List.mem_map] at hc2
      obtain ⟨y, hy, rfl⟩ := hc2
      have hy2 : y ∈ pyToLower
          (heading.toList.filter fun c => pyIsWordChar c || pyIsSpaceChar c) :=
        stripBoth_subset pyIsSpaceChar _ y hy
      rw [pyToLower, List.mem_map] at hy2
      obtain ⟨d, hd, rfl⟩ := hy2
      rw [List.mem_filter] at hd
      exact ascii_char_good d (h d hd.1).1 (h d hd.1).2 hd.2
    have hchain : final.Chain' (fun a b => ¬(a = '_' ∧ b = '_')) :=
      stripUnderscores_chain _ (collapse_chain m)
    unfold goodSectionKey
    rw [hToList]
    simp only [Bool.and_eq_true]
    refine ⟨⟨⟨⟨by simpa using hemp, ?_⟩, ?_⟩, ?_⟩, ?_⟩
    · rw [List.all_eq_true]
      exact hmem
    · exact (noDoubleU_iff_chain final).mpr hchain
    · cases hh : final.head? with
      | none => simp
      | some a =>
        have := stripBoth_head (fun d => d = '_') (collapseUnderscores m) a hh
        simp only [decide_eq_false_iff_not] at this
        simp [this]
    · cases hh : final.getLast? with
      | none => simp
      | some a =>
        have := stripBoth_last (fun d => d = '_') (collapseUnderscores m) a hh
        simp only [decide_eq_false_iff_not] at this
        simp [this]

/-- C7 witness: the amended theorem applied to the concrete heading
"Project Description!!". -/
theorem c7_section_key_shape_witness :
    goodSectionKey (normalize_section_name "Project Description!!") = true :=
  c7_section_key_shape_amended _ (by decide)

end PdfProc
